import Mathlib

/-!
Shallow embedding of the solar event engine of megatih/GoGoldenHour.

Conventions of the embedding:
  * Go `float64` threshold and coordinate values are modelled as rationals;
    the code under verification only compares them and subtracts constants,
    so the rational model is faithful for every finite input.
  * a Go `time.Time` instant is modelled as an integer (nanoseconds on an
    absolute axis, with the Go zero instant at 0); `IsZero` and `After` of
    the standard library become equality with 0 and integer strict order.
  * the civil content of a `time.Time` built by `time.Date(y, m, d, 0, 0,
    0, 0, tz)` is modelled as the record of its year, month, day and zone
    name; the time-of-day fields are all zero there and `Calculate` reads
    nothing else from its date argument.
  * the external collaborators used by `Calculate` (the go-sampa primitive
    `GetSunEvents`, the zone database behind `time.LoadLocation`, and the
    process zone `time.Local`) are passed as an explicit environment
    record, so every theorem quantifies over their behaviour.
  * Go methods with a pointer receiver are modelled as functions that
    also return the updated receiver.
-/

namespace GoGoldenHour

/-- Go time.Time instants on an absolute axis; the zero instant is 0. -/
abbrev GoInstant := Int

/-- Go time.Time method IsZero: the instant equals the zero instant. -/
def GoInstant.IsZero (t : GoInstant) : Bool :=
  t == 0

/-- Go time.Time method After: t.After u reports whether t is after u. -/
def GoInstant.After (t u : GoInstant) : Bool :=
  decide (u < t)

/-- Civil content of a Go time.Time at midnight: year, month, day and the
name of the attached zone. The Go zero time is January 1 of year 1 in UTC. -/
structure GoDateTime where
  Year : Int := 1
  Month : Int := 1
  Day : Int := 1
  Zone : String := "UTC"
  deriving Repr, DecidableEq

namespace domain

/-- Embeds domain.Location (src/internal/domain/location.go). -/
structure Location where
  Latitude : ℚ := 0
  Longitude : ℚ := 0
  Elevation : ℚ := 0
  Name : String := ""
  Timezone : String := ""
  deriving Repr, DecidableEq

/-- Embeds Location.IsValid (src/internal/domain/location.go). -/
def Location.IsValid (l : Location) : Bool :=
  decide (l.Latitude ≥ -90) && decide (l.Latitude ≤ 90) &&
    decide (l.Longitude ≥ -180) && decide (l.Longitude ≤ 180)

/-- Embeds DefaultLocation (src/internal/domain/location.go): London, UK. -/
def DefaultLocation : Location :=
  { Latitude := 51.5074
    Longitude := -0.1278
    Elevation := 11
    Name := "London, United Kingdom"
    Timezone := "Europe/London" }

/-- Embeds domain.TimeRange (src/internal/domain/suntime.go). The Go zero
value TimeRange has both instants at the zero instant. -/
structure TimeRange where
  Start : GoInstant := 0
  End : GoInstant := 0
  deriving Repr, DecidableEq

/-- Embeds TimeRange.IsValid (src/internal/domain/suntime.go lines 64-66):
both instants set (not zero) and End strictly after Start. -/
def TimeRange.IsValid (tr : TimeRange) : Bool :=
  !tr.Start.IsZero && !tr.End.IsZero && tr.End.After tr.Start

/-- Embeds domain.SunTimes (src/internal/domain/suntime.go). The Go zero
value has zero times and empty ranges everywhere. -/
structure SunTimes where
  Date : GoDateTime := {}
  Location : Location := {}
  Sunrise : GoInstant := 0
  Sunset : GoInstant := 0
  SolarNoon : GoInstant := 0
  GoldenMorning : TimeRange := {}
  GoldenEvening : TimeRange := {}
  BlueMorning : TimeRange := {}
  BlueEvening : TimeRange := {}
  deriving Repr, DecidableEq

/-- Embeds SunTimes.HasValidGoldenHour (src/internal/domain/suntime.go). -/
def SunTimes.HasValidGoldenHour (st : SunTimes) : Bool :=
  st.GoldenMorning.IsValid || st.GoldenEvening.IsValid

/-- Embeds SunTimes.HasValidBlueHour (src/internal/domain/suntime.go
lines 183-185). -/
def SunTimes.HasValidBlueHour (st : SunTimes) : Bool :=
  st.BlueMorning.IsValid || st.BlueEvening.IsValid

/-- Embeds domain.Settings (src/internal/domain/settings.go). -/
structure Settings where
  GoldenHourElevation : ℚ := 0
  BlueHourStart : ℚ := 0
  BlueHourEnd : ℚ := 0
  TimeFormat24Hour : Bool := false
  AutoDetectLocation : Bool := false
  LastLocation : Option Location := none
  deriving Repr, DecidableEq

/-- Embeds DefaultSettings (src/internal/domain/settings.go). -/
def DefaultSettings : Settings :=
  { GoldenHourElevation := 6
    BlueHourStart := -4
    BlueHourEnd := -8
    TimeFormat24Hour := true
    AutoDetectLocation := true
    LastLocation := none }

/-- Embeds Settings.Validate (src/internal/domain/settings.go lines
136-166). The Go method mutates its pointer receiver field by field in
order; the embedding threads the same sequential updates and returns the
final record. -/
def Settings.Validate (s : Settings) : Settings :=
  let g := if s.GoldenHourElevation < 0 then 0
    else if s.GoldenHourElevation > 15 then 15
    else s.GoldenHourElevation
  let bs := if s.BlueHourStart > 0 then 0
    else if s.BlueHourStart < -6 then -6
    else s.BlueHourStart
  let be := if s.BlueHourEnd > -6 then -6
    else if s.BlueHourEnd < -18 then -18
    else s.BlueHourEnd
  let be2 := if be > bs then bs - 4 else be
  { s with GoldenHourElevation := g, BlueHourStart := bs, BlueHourEnd := be2 }

end domain

namespace sampa

/-- Embeds sampa.Location of the go-sampa dependency: bare coordinates. -/
structure Location where
  Latitude : ℚ := 0
  Longitude : ℚ := 0
  Elevation : ℚ := 0
  deriving Repr, DecidableEq

/-- Embeds sampa.SunPosition as used by the calculator: only its DateTime
field is ever read. -/
structure SunPosition where
  DateTime : GoInstant := 0
  deriving Repr, DecidableEq

/-- Embeds sampa.CustomSunEvent: a named event specification with a
before/after-transit flag and an elevation extractor function. -/
structure CustomSunEvent where
  Name : String
  BeforeTransit : Bool
  Elevation : SunPosition → ℚ

/-- Embeds sampa.SunEvents: the three standard events plus the map of
custom events keyed by name (a Go map, modelled as an association list). -/
structure SunEvents where
  Sunrise : SunPosition := {}
  Sunset : SunPosition := {}
  Transit : SunPosition := {}
  Others : List (String × SunPosition) := []

end sampa

namespace solar

open domain

/-- The external state consumed by Calculate: the zone database behind Go
time.LoadLocation (none models a load error), the process-local zone
time.Local, and the go-sampa primitive sampa.GetSunEvents. -/
structure SampaEnv where
  loadLocation : String → Option String
  localTz : String
  GetSunEvents : GoDateTime → sampa.Location → List sampa.CustomSunEvent →
    Except String sampa.SunEvents

/-- Embeds solar.Calculator (src/internal/service/solar/calculator.go):
holds the settings snapshot. -/
structure Calculator where
  settings : Settings

/-- Embeds solar.New. -/
def New (settings : Settings) : Calculator :=
  ⟨settings⟩

/-- Embeds Calculator.UpdateSettings (pointer-receiver mutation returned
as the new state). -/
def UpdateSettings (c : Calculator) (settings : Settings) : Calculator :=
  { c with settings := settings }

/-- Embeds toSampaLocation (calculator.go lines 27-33). -/
def toSampaLocation (loc : Location) : sampa.Location :=
  { Latitude := loc.Latitude
    Longitude := loc.Longitude
    Elevation := loc.Elevation }

/-- Embeds extractTimeRange (calculator.go lines 36-46): look up both keys
in the event map; build the range only when both are present, otherwise
return the zero TimeRange. -/
def extractTimeRange (events : List (String × sampa.SunPosition))
    (startKey endKey : String) : TimeRange :=
  match events.lookup startKey, events.lookup endKey with
  | some s, some e => { Start := s.DateTime, End := e.DateTime }
  | _, _ => {}

/-- Embeds createCustomEvents (calculator.go lines 88-158): the 8 custom
event specifications built from the three thresholds; each closure
captures its threshold by value and ignores its SunPosition argument. -/
def createCustomEvents (c : Calculator) : List sampa.CustomSunEvent :=
  let goldenElevation := c.settings.GoldenHourElevation
  let blueStart := c.settings.BlueHourStart
  let blueEnd := c.settings.BlueHourEnd
  [ { Name := "GoldenMorningStart", BeforeTransit := true,
      Elevation := fun _ => 0 },
    { Name := "GoldenMorningEnd", BeforeTransit := true,
      Elevation := fun _ => goldenElevation },
    { Name := "GoldenEveningStart", BeforeTransit := false,
      Elevation := fun _ => goldenElevation },
    { Name := "GoldenEveningEnd", BeforeTransit := false,
      Elevation := fun _ => 0 },
    { Name := "BlueMorningStart", BeforeTransit := true,
      Elevation := fun _ => blueEnd },
    { Name := "BlueMorningEnd", BeforeTransit := true,
      Elevation := fun _ => blueStart },
    { Name := "BlueEveningStart", BeforeTransit := false,
      Elevation := fun _ => blueStart },
    { Name := "BlueEveningEnd", BeforeTransit := false,
      Elevation := fun _ => blueEnd } ]

/-- Embeds Calculator.Calculate (calculator.go lines 49-85). The Go method
returns a (SunTimes, error) pair and leaves the receiver untouched; the
embedding returns ((result, optional error message), receiver state). -/
def Calculate (env : SampaEnv) (c : Calculator) (loc : Location)
    (date : GoDateTime) : (SunTimes × Option String) × Calculator :=
  let tz := match env.loadLocation loc.Timezone with
    | some z => z
    | none => env.localTz
  let date := { Year := date.Year, Month := date.Month, Day := date.Day,
                Zone := tz : GoDateTime }
  let sampaLoc := toSampaLocation loc
  let customEvents := createCustomEvents c
  match env.GetSunEvents date sampaLoc customEvents with
  | .error e =>
      (({}, some ("failed to calculate sun events: " ++ e)), c)
  | .ok events =>
      (({ Date := date
          Location := loc
          Sunrise := events.Sunrise.DateTime
          Sunset := events.Sunset.DateTime
          SolarNoon := events.Transit.DateTime
          GoldenMorning :=
            extractTimeRange events.Others "GoldenMorningStart" "GoldenMorningEnd"
          GoldenEvening :=
            extractTimeRange events.Others "GoldenEveningStart" "GoldenEveningEnd"
          BlueMorning :=
            extractTimeRange events.Others "BlueMorningStart" "BlueMorningEnd"
          BlueEvening :=
            extractTimeRange events.Others "BlueEveningStart" "BlueEveningEnd" },
        none), c)

end solar

namespace solar

open domain

/-- The date actually handed to the solar primitive by Calculate: the input
date normalized to midnight (lines 51-58 of calculator.go), in the loaded
zone or, when loading fails, in the process-local zone time.Local. -/
def normalizedDate (env : SampaEnv) (loc : Location) (date : GoDateTime) :
    GoDateTime :=
  { Year := date.Year, Month := date.Month, Day := date.Day,
    Zone := match env.loadLocation loc.Timezone with
      | some z => z
      | none => env.localTz }

/-- Helper: Calculate unfolded through its let bindings, stated with the
normalized date named; holds by definitional unfolding. -/
lemma Calculate_eq (env : SampaEnv) (c : Calculator) (loc : Location)
    (date : GoDateTime) :
    Calculate env c loc date =
      match env.GetSunEvents (normalizedDate env loc date) (toSampaLocation loc)
          (createCustomEvents c) with
      | .error e =>
          (({}, some ("failed to calculate sun events: " ++ e)), c)
      | .ok events =>
          (({ Date := normalizedDate env loc date
              Location := loc
              Sunrise := events.Sunrise.DateTime
              Sunset := events.Sunset.DateTime
              SolarNoon := events.Transit.DateTime
              GoldenMorning :=
                extractTimeRange events.Others "GoldenMorningStart" "GoldenMorningEnd"
              GoldenEvening :=
                extractTimeRange events.Others "GoldenEveningStart" "GoldenEveningEnd"
              BlueMorning :=
                extractTimeRange events.Others "BlueMorningStart" "BlueMorningEnd"
              BlueEvening :=
                extractTimeRange events.Others "BlueEveningStart" "BlueEveningEnd" },
            none), c) :=
  rfl

/-- Helper: the flag and target elevation of the named custom event spec, as
found by name in the list built by createCustomEvents. -/
def findSpec (c : Calculator) (key : String) (p : sampa.SunPosition) :
    Option (Bool × ℚ) :=
  ((createCustomEvents c).find? (fun ev => ev.Name == key)).map
    (fun ev => (ev.BeforeTransit, ev.Elevation p))

/-- A sample environment whose zone database resolves nothing and whose
process-local zone is America/New_York; the primitive always succeeds with
an empty event bag. -/
def nyEnv : SampaEnv :=
  { loadLocation := fun _ => none
    localTz := "America/New_York"
    GetSunEvents := fun _ _ _ => .ok {} }

/-- A sample environment whose solar primitive always fails. -/
def errEnv : SampaEnv :=
  { loadLocation := fun _ => none
    localTz := "UTC"
    GetSunEvents := fun _ _ _ => .error "boom" }

/-- A sample environment whose zone database resolves every name to itself
and whose primitive always succeeds with an empty event bag. -/
def okEnv : SampaEnv :=
  { loadLocation := fun z => some z
    localTz := "UTC"
    GetSunEvents := fun _ _ _ => .ok {} }

end solar

namespace domain

/-- Helper: every field of the record produced by Settings.Validate lies in
its documented clamping range. -/
lemma Validate_bounds (s : Settings) :
    0 ≤ (s.Validate).GoldenHourElevation ∧ (s.Validate).GoldenHourElevation ≤ 15 ∧
    -6 ≤ (s.Validate).BlueHourStart ∧ (s.Validate).BlueHourStart ≤ 0 ∧
    -18 ≤ (s.Validate).BlueHourEnd ∧ (s.Validate).BlueHourEnd ≤ -6 := by
  simp only [Settings.Validate]
  refine ⟨?_, ?_, ?_, ?_, ?_, ?_⟩ <;> split_ifs <;> linarith

/-- Helper: a Settings record whose three thresholds already satisfy the
clamping ranges is a fixed point of Validate. -/
lemma Validate_fixed (s : Settings) (h1 : 0 ≤ s.GoldenHourElevation)
    (h2 : s.GoldenHourElevation ≤ 15) (h3 : -6 ≤ s.BlueHourStart)
    (h4 : s.BlueHourStart ≤ 0) (h5 : -18 ≤ s.BlueHourEnd)
    (h6 : s.BlueHourEnd ≤ -6) : s.Validate = s := by
  obtain ⟨g, bs, be, t, a, l⟩ := s
  simp only [Settings.Validate] at *
  simp only [Settings.mk.injEq, eq_self_iff_true, and_true]
  refine ⟨?_, ?_, ?_⟩ <;> split_ifs <;> first | rfl | linarith

/-- Claim C3, counterexample: for the input Settings with blueStart = −6 and
blueEnd = −6, blueEnd is not numerically less than blueStart, yet Validate
does not clamp blueEnd to blueStart − 4 = −10, and after Validate blueEnd
equals blueStart instead of being strictly below it. -/
theorem validate_clamp_refuted :
    ¬ (Settings.mk 6 (-6) (-6) true true none).BlueHourEnd <
        (Settings.mk 6 (-6) (-6) true true none).BlueHourStart ∧
    (Settings.mk 6 (-6) (-6) true true none).Validate.BlueHourEnd =
        (Settings.mk 6 (-6) (-6) true true none).Validate.BlueHourStart ∧
    (Settings.mk 6 (-6) (-6) true true none).Validate.BlueHourEnd ≠
        (Settings.mk 6 (-6) (-6) true true none).BlueHourStart - 4 ∧
    ¬ (Settings.mk 6 (-6) (-6) true true none).Validate.BlueHourEnd <
        (Settings.mk 6 (-6) (-6) true true none).Validate.BlueHourStart := by
  refine ⟨by norm_num, ?_, ?_, ?_⟩ <;> simp [Settings.Validate] <;> norm_num

/-- Claim C3, amended: Settings.Validate clamps blueEnd to blueStart − 4
only when, after the per-field range clamps, blueEnd is strictly greater
than blueStart; consequently, after Validate runs, blueEnd is less than or
equal to blueStart (equality is possible, namely when both are −6). -/
theorem validate_blue_order_amended (s : Settings) :
    (s.Validate).BlueHourEnd ≤ (s.Validate).BlueHourStart := by
  obtain ⟨-, -, b3, -, -, b6⟩ := Validate_bounds s
  linarith

/-- Claim C9: Settings.Validate is idempotent — its output is always a
fixed point of Validate. -/
theorem validate_idempotent (s : Settings) : s.Validate.Validate = s.Validate := by
  obtain ⟨b1, b2, b3, b4, b5, b6⟩ := Validate_bounds s
  exact Validate_fixed _ b1 b2 b3 b4 b5 b6

/-- Claim C10: after Settings.Validate runs on any input, the thresholds
satisfy GoldenHourElevation ∈ [0, 15], BlueHourStart ∈ [−6, 0] and
BlueHourEnd ∈ [−18, −6]; consequently BlueHourEnd ≤ BlueHourStart, with
equality exactly when both equal −6. -/
theorem validate_range_invariant (s : Settings) :
    0 ≤ (s.Validate).GoldenHourElevation ∧ (s.Validate).GoldenHourElevation ≤ 15 ∧
    -6 ≤ (s.Validate).BlueHourStart ∧ (s.Validate).BlueHourStart ≤ 0 ∧
    -18 ≤ (s.Validate).BlueHourEnd ∧ (s.Validate).BlueHourEnd ≤ -6 ∧
    (s.Validate).BlueHourEnd ≤ (s.Validate).BlueHourStart ∧
    ((s.Validate).BlueHourEnd = (s.Validate).BlueHourStart ↔
      ((s.Validate).BlueHourEnd = -6 ∧ (s.Validate).BlueHourStart = -6)) := by
  obtain ⟨b1, b2, b3, b4, b5, b6⟩ := Validate_bounds s
  refine ⟨b1, b2, b3, b4, b5, b6, by linarith, ?_, ?_⟩
  · intro h
    constructor <;> linarith
  · rintro ⟨h1, h2⟩
    rw [h1, h2]

end domain

namespace domain

/-- Claim C6: TimeRange.IsValid returns true exactly when Start is not the
zero instant, End is not the zero instant, and End is strictly after Start;
in particular a range with a missing instant on either side differs from
every range with both instants set. -/
theorem timeRange_isValid_iff (tr : TimeRange) :
    (tr.IsValid = true ↔ tr.Start ≠ 0 ∧ tr.End ≠ 0 ∧ tr.Start < tr.End) ∧
    ∀ tr2 : TimeRange, (tr.Start = 0 ∨ tr.End = 0) → tr2.Start ≠ 0 →
      tr2.End ≠ 0 → tr ≠ tr2 := by
  constructor
  · simp [TimeRange.IsValid, GoInstant.IsZero, GoInstant.After, and_assoc]
  · intro tr2 h hs he heq
    rcases h with h | h
    · exact hs (heq ▸ h)
    · exact he (heq ▸ h)

/-- Claim C6, witness: the range 1..2 is valid, and the absent range is
distinct from it. -/
theorem timeRange_isValid_iff_witness :
    (TimeRange.mk 1 2).IsValid = true ∧ TimeRange.mk 0 0 ≠ TimeRange.mk 1 2 := by
  have h0 := timeRange_isValid_iff (TimeRange.mk 0 0)
  have h1 := timeRange_isValid_iff (TimeRange.mk 1 2)
  exact ⟨h1.1.mpr ⟨by decide, by decide, by decide⟩,
    h0.2 (TimeRange.mk 1 2) (Or.inl rfl) (by decide) (by decide)⟩

/-- Claim C8: whenever both the BlueMorning and BlueEvening ranges of a
SunTimes are invalid, HasValidBlueHour reports false; the check is a total
function of the record. -/
theorem hasValidBlueHour_polar_false (st : SunTimes)
    (h1 : st.BlueMorning.IsValid = false) (h2 : st.BlueEvening.IsValid = false) :
    st.HasValidBlueHour = false := by
  simp [SunTimes.HasValidBlueHour, h1, h2]

/-- Claim C8, witness: the zero SunTimes (all events absent) has no valid
blue hour. -/
theorem hasValidBlueHour_polar_false_witness :
    SunTimes.HasValidBlueHour {} = false :=
  hasValidBlueHour_polar_false {} rfl rfl

end domain

namespace solar

open domain

/-- Claim C4: extractTimeRange assembles a range exactly when both of its
constituent events are present in the event map — both present yields the
range made of their two instants, either absent yields the zero range with
both instants zero. -/
theorem extractTimeRange_both_or_empty (events : List (String × sampa.SunPosition))
    (startKey endKey : String) :
    (∀ s e, events.lookup startKey = some s → events.lookup endKey = some e →
      extractTimeRange events startKey endKey =
        { Start := s.DateTime, End := e.DateTime }) ∧
    (events.lookup startKey = none ∨ events.lookup endKey = none →
      extractTimeRange events startKey endKey = { Start := 0, End := 0 }) := by
  constructor
  · intro s e hs he
    simp [extractTimeRange, hs, he]
  · intro h
    rcases h with h | h
    · cases h2 : events.lookup endKey <;> simp [extractTimeRange, h, h2]
    · cases h2 : events.lookup startKey <;> simp [extractTimeRange, h, h2]

/-- Claim C4, witness: with both keys present the range is assembled from
their instants; with the end key missing the result is the zero range. -/
theorem extractTimeRange_both_or_empty_witness :
    extractTimeRange [("A", ⟨5⟩), ("B", ⟨7⟩)] "A" "B" = { Start := 5, End := 7 } ∧
    extractTimeRange [("A", ⟨5⟩)] "A" "B" = { Start := 0, End := 0 } := by
  refine ⟨(extractTimeRange_both_or_empty _ "A" "B").1 ⟨5⟩ ⟨7⟩ ?_ ?_,
    (extractTimeRange_both_or_empty _ "A" "B").2 (Or.inr ?_)⟩ <;> rfl

/-- Claim C7: Calculate is deterministic and stateless — it returns its
receiver unchanged, and a second invocation started from the state left by
the first, with the same inputs, returns the identical result. -/
theorem calculate_deterministic_stateless (env : SampaEnv) (c : Calculator)
    (loc : Location) (date : GoDateTime) :
    (Calculate env c loc date).2 = c ∧
    Calculate env ((Calculate env c loc date).2) loc date =
      Calculate env c loc date := by
  have key : ∀ r : Except String sampa.SunEvents,
      env.GetSunEvents (normalizedDate env loc date) (toSampaLocation loc)
        (createCustomEvents c) = r → (Calculate env c loc date).2 = c := by
    intro r hr
    cases r <;> rw [Calculate_eq, hr]
  have h2 := key _ rfl
  exact ⟨h2, by rw [h2]⟩

/-- Claim C5: when the solar primitive errors, Calculate fails atomically —
the returned SunTimes is the zero record and the error wraps the primitive
failure; no partial result is produced. -/
theorem calculate_error_atomic (env : SampaEnv) (c : Calculator) (loc : Location)
    (date : GoDateTime) (e : String)
    (h : env.GetSunEvents (normalizedDate env loc date) (toSampaLocation loc)
      (createCustomEvents c) = .error e) :
    (Calculate env c loc date).1 =
      ({}, some ("failed to calculate sun events: " ++ e)) := by
  rw [Calculate_eq, h]

/-- Claim C5, witness: under an always-failing primitive the call returns
the zero SunTimes and the wrapped error. -/
theorem calculate_error_atomic_witness :
    (Calculate errEnv (New DefaultSettings) DefaultLocation {}).1 =
      ({}, some ("failed to calculate sun events: " ++ "boom")) :=
  calculate_error_atomic errEnv (New DefaultSettings) DefaultLocation {} "boom" rfl

/-- Claim C2, counterexample: in an environment whose zone database loads
nothing and whose process-local zone is America/New_York, Calculate on a
location with an unloadable timezone normalizes the date to midnight in
America/New_York, not in UTC — the claimed UTC fallback is not what the
code does (it falls back to time.Local). -/
theorem calculate_utc_fallback_refuted :
    nyEnv.loadLocation DefaultLocation.Timezone = none ∧
    (Calculate nyEnv (New DefaultSettings) DefaultLocation
      { Year := 2026, Month := 1, Day := 2 }).1.2 = none ∧
    (Calculate nyEnv (New DefaultSettings) DefaultLocation
      { Year := 2026, Month := 1, Day := 2 }).1.1.Date.Zone = "America/New_York" ∧
    "America/New_York" ≠ "UTC" := by
  refine ⟨rfl, rfl, rfl, by decide⟩

/-- Claim C2, amended: when the location's timezone identifier cannot be
loaded, Calculate falls back to the process-local timezone time.Local
rather than failing — the date is normalized to midnight in the local zone
and the timezone failure itself produces no error; the call proceeds and
succeeds or fails with the solar primitive alone. -/
theorem calculate_local_fallback (env : SampaEnv) (c : Calculator)
    (loc : Location) (date : GoDateTime)
    (h : env.loadLocation loc.Timezone = none) :
    normalizedDate env loc date =
      { Year := date.Year, Month := date.Month, Day := date.Day,
        Zone := env.localTz } ∧
    (∀ events, env.GetSunEvents (normalizedDate env loc date)
        (toSampaLocation loc) (createCustomEvents c) = .ok events →
      (Calculate env c loc date).1.2 = none ∧
      (Calculate env c loc date).1.1.Date =
        { Year := date.Year, Month := date.Month, Day := date.Day,
          Zone := env.localTz }) ∧
    (∀ e, env.GetSunEvents (normalizedDate env loc date)
        (toSampaLocation loc) (createCustomEvents c) = .error e →
      (Calculate env c loc date).1.2 =
        some ("failed to calculate sun events: " ++ e)) := by
  have hz : normalizedDate env loc date =
      { Year := date.Year, Month := date.Month, Day := date.Day,
        Zone := env.localTz } := by
    unfold normalizedDate
    rw [h]
  refine ⟨hz, ?_, ?_⟩
  · intro events hev
    rw [Calculate_eq, hev]
    exact ⟨rfl, hz⟩
  · intro e he
    rw [Calculate_eq, he]

/-- Claim C2, amended, witness: in the concrete nyEnv environment the
timezone of the default location does not load, the call returns no error,
and the result date carries the local fallback zone. -/
theorem calculate_local_fallback_witness :
    (Calculate nyEnv (New DefaultSettings) DefaultLocation {}).1.2 = none ∧
    (Calculate nyEnv (New DefaultSettings) DefaultLocation {}).1.1.Date =
      { Year := 1, Month := 1, Day := 1, Zone := "America/New_York" } := by
  have h := calculate_local_fallback nyEnv (New DefaultSettings) DefaultLocation {} rfl
  exact h.2.1 {} rfl

/-- Claim C1: createCustomEvents builds exactly 8 custom event specs from
the three thresholds — Golden Morning from 0 (before transit) to
goldenElevation (before transit), Golden Evening from goldenElevation
(after transit) to 0 (after transit), Blue Morning from blueEnd (before
transit) to blueStart (before transit), Blue Evening from blueStart (after
transit) to blueEnd (after transit) — and Calculate assembles the four
named ranges from exactly those event pairs. -/
theorem createCustomEvents_spec_table (c : Calculator) (p : sampa.SunPosition)
    (env : SampaEnv) (loc : Location) (date : GoDateTime)
    (events : sampa.SunEvents)
    (h : env.GetSunEvents (normalizedDate env loc date) (toSampaLocation loc)
      (createCustomEvents c) = .ok events) :
    (createCustomEvents c).length = 8 ∧
    findSpec c "GoldenMorningStart" p = some (true, 0) ∧
    findSpec c "GoldenMorningEnd" p = some (true, c.settings.GoldenHourElevation) ∧
    findSpec c "GoldenEveningStart" p = some (false, c.settings.GoldenHourElevation) ∧
    findSpec c "GoldenEveningEnd" p = some (false, 0) ∧
    findSpec c "BlueMorningStart" p = some (true, c.settings.BlueHourEnd) ∧
    findSpec c "BlueMorningEnd" p = some (true, c.settings.BlueHourStart) ∧
    findSpec c "BlueEveningStart" p = some (false, c.settings.BlueHourStart) ∧
    findSpec c "BlueEveningEnd" p = some (false, c.settings.BlueHourEnd) ∧
    (Calculate env c loc date).1.1.GoldenMorning =
      extractTimeRange events.Others "GoldenMorningStart" "GoldenMorningEnd" ∧
    (Calculate env c loc date).1.1.GoldenEvening =
      extractTimeRange events.Others "GoldenEveningStart" "GoldenEveningEnd" ∧
    (Calculate env c loc date).1.1.BlueMorning =
      extractTimeRange events.Others "BlueMorningStart" "BlueMorningEnd" ∧
    (Calculate env c loc date).1.1.BlueEvening =
      extractTimeRange events.Others "BlueEveningStart" "BlueEveningEnd" := by
  rw [Calculate_eq, h]
  exact ⟨rfl, rfl, rfl, rfl, rfl, rfl, rfl, rfl, rfl, rfl, rfl, rfl, rfl⟩

/-- Claim C1, witness: on the default settings the spec list has length 8
and the Blue Morning start spec targets the blueEnd threshold −8 before
transit. -/
theorem createCustomEvents_spec_table_witness :
    (createCustomEvents (New DefaultSettings)).length = 8 ∧
    findSpec (New DefaultSettings) "BlueMorningStart" {} = some (true, -8) := by
  have h := createCustomEvents_spec_table (New DefaultSettings) {} okEnv
    DefaultLocation {} {} rfl
  exact ⟨h.1, h.2.2.2.2.2.1⟩

end solar

end GoGoldenHour
